import Mathlib

/-!
Shallow embedding of the KML-MAP viewer component (src/src/KmlViewer.jsx).

The component converts an uploaded KML file to a GeoJSON feature collection,
tallies geometry-type counts, sums geodesic lengths of line-like features,
and manages UI state (data, active view panel, loading flag).

External libraries are abstracted as parameters:
  * the KML-to-GeoJSON converter (`@tmcw/togeojson` composed with DOMParser)
    becomes `convert : String → Except String FeatureCollection`
    (a thrown exception with message `msg` is `Except.error msg`);
  * the geodesic length function (`@turf/turf` `length`) becomes
    `lengthFn : Feature → Except String ℚ` (kilometers as rationals;
    a throw is `Except.error`).
JS plain objects used as string-keyed maps (`counts`, `lengths`) are embedded
as association lists with first-match lookup and in-place update.
-/

/-- A GeoJSON feature as the component inspects it: `feature.geometry?.type`
is `geometryType` (absent geometry or absent type is `none`); `payload`
stands for the rest of the feature (coordinates, properties), which the
component itself never interprets but the abstract length function may. -/
structure Feature where
  geometryType : Option String
  payload : Nat
deriving DecidableEq

/-- The converted GeoJSON feature collection (`converted.features`). -/
structure FeatureCollection where
  features : List Feature
deriving DecidableEq

/-- First-match lookup in a string-keyed association list, like reading a
property of a JS object. -/
def lookupKey {α : Type} : List (String × α) → String → Option α
  | [], _ => none
  | (k', v) :: rest, k => if k' = k then some v else lookupKey rest k

/-- `m[k] || d`: lookup with a default. -/
def getD {α : Type} (m : List (String × α)) (k : String) (d : α) : α :=
  (lookupKey m k).getD d

/-- `m[k] = v`: replace the first binding of `k`, or append one. -/
def updKey {α : Type} : List (String × α) → String → α → List (String × α)
  | [], k, v => [(k, v)]
  | (k', v') :: rest, k, v =>
      if k' = k then (k, v) :: rest else (k', v') :: updKey rest k v

/-- Accumulator of the single metrics pass in `parseKML`:
`counts` is the JS object `counts`, `lengths` the JS object `lengths`,
`logs` records the `console.error` calls made for failed measurements. -/
structure Metrics where
  counts : List (String × Nat)
  lengths : List (String × ℚ)
  logs : List String
deriving DecidableEq

/-- The literal array `['LineString', 'MultiLineString']` of line-like
geometry types. -/
def lineTypes : List String := ["LineString", "MultiLineString"]

/-- The message logged by `console.error` when measuring a feature throws. -/
def lengthErrorLog : String := "Error calculating length for feature:"

/-- Body of the `converted.features.forEach` callback (KmlViewer.jsx lines
52-68): skip features with no geometry type; increment `counts[type]`; for
line-like types try the geodesic length, accumulating into `lengths[type]`
on success and logging (only) on failure. -/
def stepFeature (lengthFn : Feature → Except String ℚ)
    (st : Metrics) (f : Feature) : Metrics :=
  match f.geometryType with
  | none => st
  | some type =>
      let counts := updKey st.counts type (getD st.counts type 0 + 1)
      if type ∈ lineTypes then
        match lengthFn f with
        | Except.ok featureLength =>
            { counts := counts,
              lengths := updKey st.lengths type
                (getD st.lengths type 0 + featureLength),
              logs := st.logs }
        | Except.error _ =>
            { counts := counts, lengths := st.lengths,
              logs := st.logs ++ [lengthErrorLog] }
      else
        { counts := counts, lengths := st.lengths, logs := st.logs }

/-- The whole metrics pass: one fold over the features starting from empty
`counts` and `lengths` (and no logs). -/
def computeMetrics (lengthFn : Feature → Except String ℚ)
    (fs : List Feature) : Metrics :=
  fs.foldl (stepFeature lengthFn) ⟨[], [], []⟩

/-- The `activeView` values `'summary'` and `'details'`. -/
inductive ViewMode where
  | summary : ViewMode
  | details : ViewMode
deriving DecidableEq

/-- The component's React state: `geojsonData`, `elementCounts`,
`lineLengths`, `activeView`, `isLoading`. -/
structure ViewerState where
  geojsonData : Option FeatureCollection
  elementCounts : List (String × Nat)
  lineLengths : List (String × ℚ)
  activeView : Option ViewMode
  isLoading : Bool
deriving DecidableEq

/-- The initial state (`useState` defaults). -/
def initialState : ViewerState :=
  { geojsonData := none, elementCounts := [], lineLengths := [],
    activeView := none, isLoading := false }

/-- `parseKML` (KmlViewer.jsx lines 40-79) as a state transformer. The
second component is the `alert` message, when one is shown. `setIsLoading`
is called with `true` at the start and with `false` in `finally`, so the
function runs synchronously and the resulting state always has
`isLoading = false`. On a conversion failure the catch block alerts
`'Error parsing KML file: ' + error.message` and no data field is set;
on success all three data fields are set from the same pass. -/
def parseKML (convert : String → Except String FeatureCollection)
    (lengthFn : Feature → Except String ℚ)
    (st : ViewerState) (kmlText : String) : ViewerState × Option String :=
  match convert kmlText with
  | Except.error msg =>
      ({ st with isLoading := false },
       some ("Error parsing KML file: " ++ msg))
  | Except.ok converted =>
      let m := computeMetrics lengthFn converted.features
      ({ st with geojsonData := some converted,
                 elementCounts := m.counts,
                 lineLengths := m.lengths,
                 isLoading := false }, none)

/-- `handleFileUpload` (lines 82-91): take `e.target.files[0]`; with no
file, return at once. Otherwise read the file's text (the asynchronous
`FileReader` is abstracted to `readFile`; a read error alerts
`'Error reading file'`) and hand the text to `parseKML`. -/
def handleFileUpload (convert : String → Except String FeatureCollection)
    (lengthFn : Feature → Except String ℚ)
    (readFile : String → Except Unit String)
    (st : ViewerState) (files : List String) : ViewerState × Option String :=
  match files.head? with
  | none => (st, none)
  | some file =>
      match readFile file with
      | Except.ok text => parseKML convert lengthFn st text
      | Except.error _ => (st, some "Error reading file")

/-- `handleDrop` (lines 94-104): identical to `handleFileUpload` on
`e.dataTransfer.files[0]`, after `e.preventDefault()`; the boolean records
that the default was prevented (always, before the zero-file check). -/
def handleDrop (convert : String → Except String FeatureCollection)
    (lengthFn : Feature → Except String ℚ)
    (readFile : String → Except Unit String)
    (st : ViewerState) (files : List String) :
    Bool × ViewerState × Option String :=
  (true, handleFileUpload convert lengthFn readFile st files)

/-- `clearData` (lines 112-117): reset the three data fields and the
active view; `isLoading` is not touched. -/
def clearData (st : ViewerState) : ViewerState :=
  { st with geojsonData := none, elementCounts := [], lineLengths := [],
            activeView := none }

/-- The `disabled={!geojsonData}` condition on the Show Summary button. -/
def summaryDisabled (st : ViewerState) : Bool := st.geojsonData.isNone

/-- The `disabled={!geojsonData}` condition on the Show Details button. -/
def detailsDisabled (st : ViewerState) : Bool := st.geojsonData.isNone

/-- The `disabled={!geojsonData}` condition on the Clear Data button. -/
def clearDisabled (st : ViewerState) : Bool := st.geojsonData.isNone

/-- The map viewport: `fittedBounds` is the corner pair last passed to
`map.fitBounds`, or `none` if the base view was never adjusted. -/
structure MapView where
  fittedBounds : Option ((ℚ × ℚ) × (ℚ × ℚ))
deriving DecidableEq

/-- The `FitBounds` component (lines 18-27): when
`geojson?.features?.length > 0`, compute `[minX, minY, maxX, maxY] =
bbox(geojson)` (the bounding-box function is abstracted to `bboxFn`) and
fit the map to `[[minY, minX], [maxY, maxX]]`; otherwise leave the view
alone. -/
def FitBounds (bboxFn : FeatureCollection → ℚ × ℚ × ℚ × ℚ)
    (geojson : Option FeatureCollection) (view : MapView) : MapView :=
  match geojson with
  | none => view
  | some g =>
      if 0 < g.features.length then
        let b := bboxFn g
        { fittedBounds := some ((b.2.1, b.1), (b.2.2.2, b.2.2.1)) }
      else view

/-- Sum of the values of a counts object. -/
def sumValues (m : List (String × Nat)) : Nat := (m.map Prod.snd).sum

/-! ### Association-list lemmas -/

theorem lookupKey_updKey {α : Type} (m : List (String × α)) (k k' : String)
    (v : α) :
    lookupKey (updKey m k v) k' =
      if k = k' then some v else lookupKey m k' := by
  induction m with
  | nil => simp [updKey, lookupKey]
  | cons p rest ih =>
      obtain ⟨a, b⟩ := p
      by_cases hak : a = k
      · subst hak
        by_cases hk' : a = k' <;> simp [updKey, lookupKey, hk']
      · by_cases hk' : a = k'
        · subst hk'
          simp [updKey, lookupKey, hak, Ne.symm hak]
        · simp [updKey, lookupKey, hak, hk', ih]

theorem mem_updKey {α : Type} (m : List (String × α)) (k : String) (v : α)
    (p : String × α) (hp : p ∈ updKey m k v) : p ∈ m ∨ p = (k, v) := by
  induction m with
  | nil => simp [updKey] at hp; simp [hp]
  | cons q rest ih =>
      obtain ⟨a, b⟩ := q
      by_cases hak : a = k
      · subst hak
        simp [updKey] at hp
        rcases hp with h | h
        · right; simp [h]
        · left; simp [h]
      · simp [updKey, hak] at hp
        rcases hp with h | h
        · left; simp [h]
        · rcases ih h with h' | h'
          · left; simp [h']
          · right; exact h'

theorem sumValues_updKey (m : List (String × Nat)) (k : String) :
    sumValues (updKey m k (getD m k 0 + 1)) = sumValues m + 1 := by
  induction m with
  | nil => simp [updKey, getD, lookupKey, sumValues]
  | cons p rest ih =>
      obtain ⟨a, b⟩ := p
      by_cases hak : a = k
      · subst hak
        simp [updKey, getD, lookupKey, sumValues]
        omega
      · have hne : ¬ a = k := hak
        simp [updKey, getD, lookupKey, hne, sumValues] at ih ⊢
        omega

/-! ### Fold lemmas for the metrics pass -/

theorem fold_inv (lengthFn : Feature → Except String ℚ)
    (P : Metrics → Prop)
    (hstep : ∀ st f, P st → P (stepFeature lengthFn st f)) :
    ∀ (fs : List Feature) (st : Metrics), P st →
      P (fs.foldl (stepFeature lengthFn) st) := by
  intro fs
  induction fs with
  | nil => intro st h; exact h
  | cons f rest ih => intro st h; exact ih _ (hstep st f h)

theorem step_counts_congr (L L' : Feature → Except String ℚ)
    (st st' : Metrics) (f : Feature) (h : st.counts = st'.counts) :
    (stepFeature L st f).counts = (stepFeature L' st' f).counts := by
  unfold stepFeature
  cases f.geometryType with
  | none => exact h
  | some t =>
      by_cases ht : t ∈ lineTypes
      · cases L f <;> cases L' f <;> simp [ht, h]
      · simp [ht, h]

theorem fold_counts_congr (L L' : Feature → Except String ℚ)
    (fs : List Feature) :
    ∀ (st st' : Metrics), st.counts = st'.counts →
      (fs.foldl (stepFeature L) st).counts =
        (fs.foldl (stepFeature L') st').counts := by
  induction fs with
  | nil => intro st st' h; exact h
  | cons f rest ih =>
      intro st st' h
      exact ih _ _ (step_counts_congr L L' st st' f h)

theorem step_lengths_congr (L : Feature → Except String ℚ)
    (st st' : Metrics) (f : Feature) (h : st.lengths = st'.lengths) :
    (stepFeature L st f).lengths = (stepFeature L st' f).lengths := by
  unfold stepFeature
  cases f.geometryType with
  | none => exact h
  | some t =>
      by_cases ht : t ∈ lineTypes
      · cases L f <;> simp [ht, h]
      · simp [ht, h]

theorem fold_lengths_congr (L : Feature → Except String ℚ)
    (fs : List Feature) :
    ∀ (st st' : Metrics), st.lengths = st'.lengths →
      (fs.foldl (stepFeature L) st).lengths =
        (fs.foldl (stepFeature L) st').lengths := by
  induction fs with
  | nil => intro st st' h; exact h
  | cons f rest ih =>
      intro st st' h
      exact ih _ _ (step_lengths_congr L st st' f h)

theorem step_lengths_of_error (L : Feature → Except String ℚ)
    (st : Metrics) (f : Feature) (t e : String)
    (hf : f.geometryType = some t) (hL : L f = Except.error e) :
    (stepFeature L st f).lengths = st.lengths := by
  unfold stepFeature
  rw [hf]
  by_cases ht : t ∈ lineTypes
  · simp [ht, hL]
  · simp [ht]

theorem step_logs (L : Feature → Except String ℚ) (st : Metrics)
    (f : Feature) :
    (stepFeature L st f).logs =
      st.logs ++ (stepFeature L ⟨[], [], []⟩ f).logs := by
  unfold stepFeature
  cases f.geometryType with
  | none => simp
  | some t =>
      by_cases ht : t ∈ lineTypes
      · cases L f <;> simp [ht]
      · simp [ht]

theorem fold_logs (L : Feature → Except String ℚ) (fs : List Feature) :
    ∀ (st : Metrics),
      (fs.foldl (stepFeature L) st).logs =
        st.logs ++ (computeMetrics L fs).logs := by
  induction fs with
  | nil => intro st; simp [computeMetrics]
  | cons f rest ih =>
      intro st
      show (rest.foldl (stepFeature L) (stepFeature L st f)).logs = _
      rw [ih (stepFeature L st f)]
      have hmain : (computeMetrics L (f :: rest)).logs =
          (stepFeature L ⟨[], [], []⟩ f).logs ++ (computeMetrics L rest).logs := by
        show (rest.foldl (stepFeature L) (stepFeature L ⟨[], [], []⟩ f)).logs = _
        rw [ih (stepFeature L ⟨[], [], []⟩ f)]
      rw [hmain, step_logs, List.append_assoc]

theorem counts_sum_aux (L : Feature → Except String ℚ) (fs : List Feature) :
    ∀ st : Metrics,
      sumValues (fs.foldl (stepFeature L) st).counts =
        sumValues st.counts +
          (fs.filter (fun f => f.geometryType.isSome)).length := by
  induction fs with
  | nil => intro st; simp
  | cons f rest ih =>
      intro st
      show sumValues (rest.foldl (stepFeature L) (stepFeature L st f)).counts = _
      rw [ih]
      have hstep : sumValues (stepFeature L st f).counts =
          sumValues st.counts + (if f.geometryType.isSome then 1 else 0) := by
        unfold stepFeature
        cases hg : f.geometryType with
        | none => simp
        | some t =>
            by_cases ht : t ∈ lineTypes
            · cases L f <;> simp [ht, sumValues_updKey]
            · simp [ht, sumValues_updKey]
      rw [hstep]
      by_cases hg : f.geometryType.isSome
      · simp [List.filter_cons, hg]; omega
      · simp [List.filter_cons, hg]

/-! ### Concrete fixtures used in counterexamples and witnesses -/

/-- A feature with no geometry type (togeojson yields `geometry: null` for a
Placemark carrying no geometry, so `feature.geometry?.type` is undefined). -/
def noGeomFeature : Feature := ⟨none, 0⟩

/-- A point feature. -/
def pointFeature : Feature := ⟨some "Point", 0⟩

/-- A line feature. -/
def lineFeature : Feature := ⟨some "LineString", 1⟩

/-- A collection whose only feature has no geometry type. -/
def cexCollection : FeatureCollection := ⟨[noGeomFeature]⟩

/-- A converter producing `cexCollection` for any input. -/
def cexConvert : String → Except String FeatureCollection :=
  fun _ => Except.ok cexCollection

/-- A geodesic length function that always succeeds with 0 km. -/
def zeroLengthFn : Feature → Except String ℚ := fun _ => Except.ok 0

/-- A state with data already loaded and the summary panel open. -/
def loadedState : ViewerState :=
  { geojsonData := some ⟨[lineFeature]⟩,
    elementCounts := [("LineString", 1)],
    lineLengths := [("LineString", 5)],
    activeView := some ViewMode.summary,
    isLoading := false }

/-! ### C1 -/

/-- C1 counterexample: a successfully converting input whose collection
holds one feature with no geometry type gives ElementCounts summing to 0,
not to the collection's feature count 1. -/
theorem counts_sum_counterexample :
    cexConvert "k" = Except.ok cexCollection ∧
    sumValues (parseKML cexConvert zeroLengthFn
        initialState "k").fst.elementCounts ≠
      cexCollection.features.length := by
  exact ⟨rfl, by decide⟩

/-- C1 (amended): for every input that converts successfully, the values of
ElementCounts sum to the number of features of the derived FeatureCollection
that have a geometry type (features with no geometry type are skipped and
not counted). -/
theorem parseKML_counts_sum
    (convert : String → Except String FeatureCollection)
    (L : Feature → Except String ℚ) (st : ViewerState)
    (text : String) (fc : FeatureCollection)
    (h : convert text = Except.ok fc) :
    sumValues (parseKML convert L st text).fst.elementCounts =
      (fc.features.filter (fun f => f.geometryType.isSome)).length := by
  simp only [parseKML, h]
  show sumValues (computeMetrics L fc.features).counts = _
  unfold computeMetrics
  rw [counts_sum_aux]
  simp [sumValues]

/-- Witness for C1 (amended) at a two-feature collection: one point, one
feature with no geometry type; the sum is 1, the feature count 2. -/
theorem parseKML_counts_sum_witness :
    sumValues (parseKML (fun _ => Except.ok ⟨[pointFeature, noGeomFeature]⟩)
        zeroLengthFn initialState "k").fst.elementCounts =
      ((FeatureCollection.mk [pointFeature, noGeomFeature]).features.filter
        (fun f => f.geometryType.isSome)).length :=
  parseKML_counts_sum _ zeroLengthFn initialState "k"
    ⟨[pointFeature, noGeomFeature]⟩ rfl

/-! ### C2 -/

/-- C2: when conversion fails, an alert containing the failure reason is
shown and none of the displayed fields (geojsonData, elementCounts,
lineLengths, activeView) changes. -/
theorem parseKML_failure_preserves_state
    (convert : String → Except String FeatureCollection)
    (L : Feature → Except String ℚ) (st : ViewerState)
    (text msg : String) (h : convert text = Except.error msg) :
    (parseKML convert L st text).fst.geojsonData = st.geojsonData ∧
    (parseKML convert L st text).fst.elementCounts = st.elementCounts ∧
    (parseKML convert L st text).fst.lineLengths = st.lineLengths ∧
    (parseKML convert L st text).fst.activeView = st.activeView ∧
    (parseKML convert L st text).snd =
      some ("Error parsing KML file: " ++ msg) := by
  simp [parseKML, h]

/-- Witness for C2 at a loaded state and an always-failing converter. -/
theorem parseKML_failure_preserves_state_witness :
    (parseKML (fun _ => Except.error "bad") zeroLengthFn
        loadedState "x").fst.geojsonData = loadedState.geojsonData ∧
    (parseKML (fun _ => Except.error "bad") zeroLengthFn
        loadedState "x").fst.elementCounts = loadedState.elementCounts ∧
    (parseKML (fun _ => Except.error "bad") zeroLengthFn
        loadedState "x").fst.lineLengths = loadedState.lineLengths ∧
    (parseKML (fun _ => Except.error "bad") zeroLengthFn
        loadedState "x").fst.activeView = loadedState.activeView ∧
    (parseKML (fun _ => Except.error "bad") zeroLengthFn
        loadedState "x").snd = some ("Error parsing KML file: " ++ "bad") :=
  parseKML_failure_preserves_state _ zeroLengthFn loadedState "x" "bad" rfl

/-! ### C5 -/

/-- C5: from any state with data loaded, Clear resets geojsonData,
elementCounts, lineLengths and activeView, whatever the current view, and
afterwards all three controls are disabled. -/
theorem clearData_resets (st : ViewerState)
    (_h : st.geojsonData.isSome = true) :
    (clearData st).geojsonData = none ∧
    (clearData st).elementCounts = [] ∧
    (clearData st).lineLengths = [] ∧
    (clearData st).activeView = none ∧
    summaryDisabled (clearData st) = true ∧
    detailsDisabled (clearData st) = true ∧
    clearDisabled (clearData st) = true := by
  simp [clearData, summaryDisabled, detailsDisabled, clearDisabled]

/-- Witness for C5 at the loaded state with the summary panel open. -/
theorem clearData_resets_witness :
    (clearData loadedState).geojsonData = none ∧
    (clearData loadedState).elementCounts = [] ∧
    (clearData loadedState).lineLengths = [] ∧
    (clearData loadedState).activeView = none ∧
    summaryDisabled (clearData loadedState) = true ∧
    detailsDisabled (clearData loadedState) = true ∧
    clearDisabled (clearData loadedState) = true :=
  clearData_resets loadedState rfl

/-! ### C6 -/

/-- C6: parsing the same KML text twice from any starting state yields
identical ElementCounts and identical LineLengths (the converter and the
length function are Lean functions, hence deterministic). -/
theorem parseKML_idempotent
    (convert : String → Except String FeatureCollection)
    (L : Feature → Except String ℚ) (st : ViewerState) (text : String) :
    (parseKML convert L (parseKML convert L st text).fst
        text).fst.elementCounts =
      (parseKML convert L st text).fst.elementCounts ∧
    (parseKML convert L (parseKML convert L st text).fst
        text).fst.lineLengths =
      (parseKML convert L st text).fst.lineLengths := by
  cases h : convert text <;> simp [parseKML, h]

/-! ### C7 -/

/-- C7: with no data or an empty feature list the viewport is untouched;
with at least one feature the bounding box is recomputed and applied as
`[[minY, minX], [maxY, maxX]]`. -/
theorem FitBounds_spec (bboxFn : FeatureCollection → ℚ × ℚ × ℚ × ℚ)
    (view : MapView) (g : FeatureCollection) :
    FitBounds bboxFn none view = view ∧
    (g.features = [] → FitBounds bboxFn (some g) view = view) ∧
    (g.features ≠ [] →
      FitBounds bboxFn (some g) view =
        { fittedBounds := some (((bboxFn g).2.1, (bboxFn g).1),
            ((bboxFn g).2.2.2, (bboxFn g).2.2.1)) }) := by
  refine ⟨rfl, ?_, ?_⟩
  · intro h; simp [FitBounds, h]
  · intro h
    have hpos : 0 < g.features.length := List.length_pos.mpr h
    simp [FitBounds, hpos]

/-- An empty feature collection. -/
def emptyCollection : FeatureCollection := ⟨[]⟩

/-- A concrete bounding-box function. -/
def bbox0 : FeatureCollection → ℚ × ℚ × ℚ × ℚ := fun _ => (0, 1, 2, 3)

/-- A map view never yet fitted. -/
def view0 : MapView := ⟨none⟩

/-- Witness for C7: empty collection leaves the view, a one-line collection
fits the view to the reordered bounding box. -/
theorem FitBounds_spec_witness :
    FitBounds bbox0 (some emptyCollection) view0 = view0 ∧
    FitBounds bbox0 (some ⟨[lineFeature]⟩) view0 =
      { fittedBounds := some ((1, 0), (3, 2)) } :=
  ⟨(FitBounds_spec bbox0 view0 emptyCollection).2.1 rfl,
   (FitBounds_spec bbox0 view0 ⟨[lineFeature]⟩).2.2 (by decide)⟩

/-! ### C8 -/

/-- C8: a change event or drop event carrying zero files leaves the whole
state unchanged and raises no alert (the drop handler still prevents the
browser default). -/
theorem zeroFiles_noop
    (convert : String → Except String FeatureCollection)
    (L : Feature → Except String ℚ)
    (readFile : String → Except Unit String) (st : ViewerState) :
    handleFileUpload convert L readFile st [] = (st, none) ∧
    handleDrop convert L readFile st [] = (true, st, none) := by
  constructor <;> rfl

/-! ### C3 -/

/-- C3: when the length computation throws for one feature, the failure is
logged and only logged, that feature contributes nothing to LineLengths,
the features before and after it are still processed, and the surrounding
conversion still completes successfully with updated state and no alert. -/
theorem measurement_failure_nonfatal
    (L : Feature → Except String ℚ) (f : Feature) (t e : String)
    (hf : f.geometryType = some t) (ht : t ∈ lineTypes)
    (hL : L f = Except.error e)
    (xs ys : List Feature)
    (convert : String → Except String FeatureCollection)
    (text : String) (st : ViewerState)
    (hc : convert text = Except.ok ⟨xs ++ f :: ys⟩) :
    (computeMetrics L (xs ++ f :: ys)).lengths =
      (computeMetrics L (xs ++ ys)).lengths ∧
    (computeMetrics L (xs ++ f :: ys)).logs =
      (computeMetrics L xs).logs ++
        lengthErrorLog :: (computeMetrics L ys).logs ∧
    (parseKML convert L st text).fst.geojsonData =
      some ⟨xs ++ f :: ys⟩ ∧
    (parseKML convert L st text).snd = none := by
  have hstepf : ∀ st0 : Metrics, stepFeature L st0 f =
      { counts := updKey st0.counts t (getD st0.counts t 0 + 1),
        lengths := st0.lengths, logs := st0.logs ++ [lengthErrorLog] } := by
    intro st0
    unfold stepFeature
    rw [hf]
    simp [ht, hL]
  refine ⟨?_, ?_, ?_, ?_⟩
  · show ((xs ++ f :: ys).foldl (stepFeature L) ⟨[], [], []⟩).lengths =
      ((xs ++ ys).foldl (stepFeature L) ⟨[], [], []⟩).lengths
    rw [List.foldl_append, List.foldl_append, List.foldl_cons]
    refine fold_lengths_congr L ys _ _ ?_
    rw [hstepf]
  · show ((xs ++ f :: ys).foldl (stepFeature L) ⟨[], [], []⟩).logs = _
    rw [List.foldl_append, List.foldl_cons, fold_logs, hstepf]
    have hxs : (computeMetrics L xs).logs =
        (xs.foldl (stepFeature L) ⟨[], [], []⟩).logs := rfl
    simp [hxs]
  · simp [parseKML, hc]
  · simp [parseKML, hc]

/-- A length function throwing exactly on features with payload 1. -/
def failFn : Feature → Except String ℚ :=
  fun g => if g.payload = 1 then Except.error "boom" else Except.ok 2

/-- A second line feature, measured successfully by `failFn`. -/
def lineFeature2 : Feature := ⟨some "LineString", 2⟩

/-- Witness for C3: a point, a line whose measurement throws, then a line
measured fine; the failing line adds nothing to the lengths, one log entry
appears, and the conversion completes with no alert. -/
theorem measurement_failure_nonfatal_witness :
    (computeMetrics failFn
        ([pointFeature] ++ lineFeature :: [lineFeature2])).lengths =
      (computeMetrics failFn ([pointFeature] ++ [lineFeature2])).lengths ∧
    (computeMetrics failFn
        ([pointFeature] ++ lineFeature :: [lineFeature2])).logs =
      (computeMetrics failFn [pointFeature]).logs ++
        lengthErrorLog :: (computeMetrics failFn [lineFeature2]).logs ∧
    (parseKML
        (fun _ => Except.ok ⟨[pointFeature] ++ lineFeature :: [lineFeature2]⟩)
        failFn initialState "k").fst.geojsonData =
      some ⟨[pointFeature] ++ lineFeature :: [lineFeature2]⟩ ∧
    (parseKML
        (fun _ => Except.ok ⟨[pointFeature] ++ lineFeature :: [lineFeature2]⟩)
        failFn initialState "k").snd = none :=
  measurement_failure_nonfatal failFn lineFeature "LineString" "boom" rfl
    (by decide) rfl [pointFeature] [lineFeature2]
    (fun _ => Except.ok ⟨[pointFeature] ++ lineFeature :: [lineFeature2]⟩)
    "k" initialState rfl

/-! ### C4 -/

/-- C4: after the metrics pass, every key of LineLengths is a line-like
geometry type and every stored value is nonnegative, assuming the geodesic
length function only returns nonnegative lengths. -/
theorem lineLengths_wellformed (L : Feature → Except String ℚ)
    (hL : ∀ f q, L f = Except.ok q → 0 ≤ q) (fs : List Feature)
    (k : String) (v : ℚ)
    (hk : lookupKey (computeMetrics L fs).lengths k = some v) :
    k ∈ lineTypes ∧ 0 ≤ v := by
  have hstep : ∀ (st : Metrics) (f : Feature),
      (∀ k' v', lookupKey st.lengths k' = some v' →
        k' ∈ lineTypes ∧ 0 ≤ v') →
      (∀ k' v', lookupKey (stepFeature L st f).lengths k' = some v' →
        k' ∈ lineTypes ∧ 0 ≤ v') := by
    intro st f hst
    cases hg : f.geometryType with
    | none => simpa [stepFeature, hg] using hst
    | some t =>
        by_cases ht : t ∈ lineTypes
        · cases hLf : L f with
          | error e => simpa [stepFeature, hg, ht, hLf] using hst
          | ok q =>
              have hq : 0 ≤ q := hL f q hLf
              have hgetD : 0 ≤ getD st.lengths t 0 := by
                unfold getD
                cases hlk : lookupKey st.lengths t with
                | none => simp
                | some w => simpa using (hst t w hlk).2
              intro k' v' hkv
              simp only [stepFeature, hg, ht, if_true, hLf] at hkv
              rw [lookupKey_updKey] at hkv
              by_cases htk : t = k'
              · subst htk
                simp at hkv
                subst hkv
                exact ⟨ht, by positivity⟩
              · rw [if_neg htk] at hkv
                exact hst k' v' hkv
        · simpa [stepFeature, hg, ht] using hst
  have hbase : ∀ k' v',
      lookupKey (Metrics.mk [] [] []).lengths k' = some v' →
      k' ∈ lineTypes ∧ 0 ≤ v' := by
    intro k' v' h
    simp [lookupKey] at h
  exact fold_inv L
    (fun m => ∀ k' v', lookupKey m.lengths k' = some v' →
      k' ∈ lineTypes ∧ 0 ≤ v')
    hstep fs ⟨[], [], []⟩ hbase k v hk

/-- Witness for C4 at a single line feature of length 2 km. -/
theorem lineLengths_wellformed_witness :
    "LineString" ∈ lineTypes ∧ (0 : ℚ) ≤ 2 :=
  lineLengths_wellformed (fun _ => Except.ok 2)
    (by intro f q h; injection h with h2; rw [← h2]; norm_num)
    [lineFeature] "LineString" 2
    (by simp [computeMetrics, stepFeature, lineFeature, lineTypes, getD,
      lookupKey, updKey])

/-! ### C9 -/

/-- C9: after the metrics pass, every key of LineLengths is also a key of
ElementCounts, and every count stored in ElementCounts is at least 1. -/
theorem counts_cover_lengths (L : Feature → Except String ℚ)
    (fs : List Feature) :
    (∀ k, (lookupKey (computeMetrics L fs).lengths k).isSome = true →
      (lookupKey (computeMetrics L fs).counts k).isSome = true) ∧
    (∀ p ∈ (computeMetrics L fs).counts, 1 ≤ p.2) := by
  have hstep : ∀ (st : Metrics) (f : Feature),
      ((∀ k, (lookupKey st.lengths k).isSome = true →
          (lookupKey st.counts k).isSome = true) ∧
        (∀ p ∈ st.counts, 1 ≤ p.2)) →
      ((∀ k, (lookupKey (stepFeature L st f).lengths k).isSome = true →
          (lookupKey (stepFeature L st f).counts k).isSome = true) ∧
        (∀ p ∈ (stepFeature L st f).counts, 1 ≤ p.2)) := by
    intro st f hst
    obtain ⟨hcover, hpos⟩ := hst
    cases hg : f.geometryType with
    | none =>
        have hstep0 : stepFeature L st f = st := by simp [stepFeature, hg]
        rw [hstep0]
        exact ⟨hcover, hpos⟩
    | some t =>
        have hcover' : ∀ k,
            (lookupKey st.lengths k).isSome = true →
            (lookupKey (updKey st.counts t
              (getD st.counts t 0 + 1)) k).isSome = true := by
          intro k hk
          rw [lookupKey_updKey]
          by_cases htk : t = k
          · simp [htk]
          · simpa [htk] using hcover k hk
        have hself : (lookupKey (updKey st.counts t
            (getD st.counts t 0 + 1)) t).isSome = true := by
          rw [lookupKey_updKey]
          simp
        have hpos' : ∀ p ∈ updKey st.counts t (getD st.counts t 0 + 1),
            1 ≤ p.2 := by
          intro p hp
          rcases mem_updKey _ _ _ p hp with h | h
          · exact hpos p h
          · subst h; omega
        by_cases ht : t ∈ lineTypes
        · cases hLf : L f with
          | error e =>
              refine ⟨?_, ?_⟩ <;> simp only [stepFeature, hg, ht, if_true, hLf]
              · exact hcover'
              · exact hpos'
          | ok q =>
              refine ⟨?_, ?_⟩ <;> simp only [stepFeature, hg, ht, if_true, hLf]
              · intro k hk
                rw [lookupKey_updKey] at hk
                by_cases htk : t = k
                · subst htk; exact hself
                · rw [if_neg htk] at hk
                  exact hcover' k hk
              · exact hpos'
        · refine ⟨?_, ?_⟩ <;> simp only [stepFeature, hg, ht, if_false]
          · exact hcover'
          · exact hpos'
  have hbase :
      ((∀ k, (lookupKey (Metrics.mk [] [] []).lengths k).isSome = true →
          (lookupKey (Metrics.mk [] [] []).counts k).isSome = true) ∧
        (∀ p ∈ (Metrics.mk [] [] []).counts, 1 ≤ p.2)) := by
    constructor
    · intro k hk; simp [lookupKey] at hk
    · intro p hp; simp at hp
  exact fold_inv L
    (fun m => (∀ k, (lookupKey m.lengths k).isSome = true →
        (lookupKey m.counts k).isSome = true) ∧
      (∀ p ∈ m.counts, 1 ≤ p.2))
    hstep fs ⟨[], [], []⟩ hbase

/-- Witness for C9: at a single line feature, LineString is a key of the
lengths, hence of the counts, and the stored count is at least 1. -/
theorem counts_cover_lengths_witness :
    (lookupKey (computeMetrics zeroLengthFn [lineFeature]).counts
      "LineString").isSome = true ∧
    1 ≤ (("LineString", 1) : String × Nat).2 :=
  ⟨(counts_cover_lengths zeroLengthFn [lineFeature]).1 "LineString"
      (by simp [computeMetrics, stepFeature, lineFeature, lineTypes,
        zeroLengthFn, getD, lookupKey, updKey]),
   (counts_cover_lengths zeroLengthFn [lineFeature]).2 ("LineString", 1)
      (by simp [computeMetrics, stepFeature, lineFeature, lineTypes,
        zeroLengthFn, getD, lookupKey, updKey])⟩

/-! ### C10 -/

/-- C10: a line-like feature whose measurement throws is still counted —
the count update happens before the length attempt, and ElementCounts does
not depend on the length function at all. -/
theorem counts_independent_of_measurement
    (L Lother : Feature → Except String ℚ) (f : Feature) (t e : String)
    (st : Metrics) (fs : List Feature)
    (hf : f.geometryType = some t) (ht : t ∈ lineTypes)
    (hL : L f = Except.error e) :
    (stepFeature L st f).counts =
      updKey st.counts t (getD st.counts t 0 + 1) ∧
    (computeMetrics L fs).counts = (computeMetrics Lother fs).counts := by
  constructor
  · unfold stepFeature
    rw [hf]
    simp [ht, hL]
  · exact fold_counts_congr L Lother fs ⟨[], [], []⟩ ⟨[], [], []⟩ rfl

/-- Witness for C10: the line feature whose measurement throws under
`failFn` is counted exactly as under the always-succeeding length
function. -/
theorem counts_independent_of_measurement_witness :
    (stepFeature failFn ⟨[], [], []⟩ lineFeature).counts =
      updKey (Metrics.mk [] [] []).counts "LineString"
        (getD (Metrics.mk [] [] []).counts "LineString" 0 + 1) ∧
    (computeMetrics failFn [lineFeature, lineFeature2]).counts =
      (computeMetrics zeroLengthFn [lineFeature, lineFeature2]).counts :=
  counts_independent_of_measurement failFn zeroLengthFn lineFeature
    "LineString" "boom" ⟨[], [], []⟩ [lineFeature, lineFeature2]
    rfl (by decide) rfl
